import Mathlib

/-
Verification of the XMLHttpRequest emulation layer (src/shims/XMLHttpRequest.js).

The emulator is a stateful object wrapping one logical HTTP exchange. We embed
its instance state as the record `XHR.XHRState` and each method (`open`, `send`,
`abort`, `setRequestHeader`, `setDisableHeaderCheck`) and transport callback
(`responseHandler`, the `data`, `end` and `error` stream handlers, `handleError`)
as a pure state-transformer translated line by line from the source. Event
dispatch is modelled by appending to a trace field: each dispatched event records
its name and the `readyState` visible to listeners at dispatch time. JavaScript
exceptions are modelled by outcome values carried next to the post-call state
(a throw in JS keeps all mutations made before the throwing statement).

The URL resolver (`Url.parse`) and the transport are external collaborators and
are quantified over: `send` and `responseHandler` take a `parse` function as a
parameter, and transport behaviour is an input (status code, header map, body
chunks delivered to the installed handlers).
-/

namespace XHR

/-- JavaScript optional string values as they flow through the emulator:
`undefined`, `null`, or an actual string. -/
inductive JsVal where
  | undefined
  | null
  | str (s : String)
deriving DecidableEq, Repr

/-- JavaScript string coercion, as performed by the `+` operator. -/
def JsVal.toJsString : JsVal → String
  | .undefined => "undefined"
  | .null => "null"
  | .str s => s

/-- JavaScript truthiness for the values of `JsVal` (the empty string is falsy). -/
def JsVal.truthy : JsVal → Bool
  | .str s => s ≠ ""
  | _ => false

/-- A JavaScript `Error` object: `message` and `stack`. -/
structure JsError where
  message : String
  stack : String
deriving DecidableEq, Repr

/-- The `statusText` field holds `null` initially, a string, or — on the error
path of `handleError` — the error object itself. -/
inductive StatusText where
  | null
  | str (s : String)
  | err (e : JsError)
deriving DecidableEq, Repr

/-- The `settings` record filled in by `open()`:
`{ method, url, async, user, password }`. -/
structure Settings where
  method : String
  url : JsVal
  async : Bool
  user : JsVal
  password : JsVal
deriving DecidableEq, Repr

/-- One dispatched event in the trace: the event name and the `readyState`
observable by its listeners at dispatch time. -/
structure Event where
  name : String
  readyState : Nat
deriving DecidableEq, Repr

/-- The instance state of one emulator object. `settings = none` models the
initial empty `settings = {}` before the first `open()`. -/
structure XHRState where
  readyState : Nat
  settings : Option Settings
  disableHeaderCheck : Bool
  headers : List (String × String)
  sendFlag : Bool
  errorFlag : Bool
  responseText : String
  responseXML : String
  status : Option Nat
  statusText : StatusText
  events : List Event
  warnings : List String
deriving DecidableEq, Repr

/-- Ready-state constant UNSENT = 0. -/
def UNSENT : Nat := 0

/-- Ready-state constant OPENED = 1. -/
def OPENED : Nat := 1

/-- Ready-state constant HEADERS_RECEIVED = 2. -/
def HEADERS_RECEIVED : Nat := 2

/-- Ready-state constant LOADING = 3. -/
def LOADING : Nat := 3

/-- Ready-state constant DONE = 4. -/
def DONE : Nat := 4

/-- The default headers every fresh header map starts from. -/
def defaultHeaders : List (String × String) :=
  [("User-Agent", "node-XMLHttpRequest"), ("Accept", "*/*")]

/-- The forbidden request header names (`forbiddenRequestHeaders`). -/
def forbiddenRequestHeaders : List String :=
  [ "accept-charset", "accept-encoding", "access-control-request-headers",
    "access-control-request-method", "connection", "content-length",
    "content-transfer-encoding", "cookie", "cookie2", "date", "expect",
    "host", "keep-alive", "origin", "referer", "te", "trailer",
    "transfer-encoding", "upgrade", "via" ]

/-- The forbidden request methods (`forbiddenRequestMethods`). -/
def forbiddenRequestMethods : List String := ["TRACE", "TRACK", "CONNECT"]

/-- JavaScript object property update `headers[k] = v`: replaces the value of
an existing key in place, otherwise appends the new binding. -/
def setHeader : List (String × String) → String → String → List (String × String)
  | [], k, v => [(k, v)]
  | (k', v') :: rest, k, v =>
      if k' = k then (k, v) :: rest else (k', v') :: setHeader rest k v

/-- JavaScript object property read `headers[k]`, as an `Option`. -/
def getHeader : List (String × String) → String → Option String
  | [], _ => none
  | (k', v') :: rest, k => if k' = k then some v' else getHeader rest k

/-- Property read returning a `JsVal` (`undefined` when the key is absent),
as used on the transport response header object. -/
def getHeaderJs (hs : List (String × String)) (k : String) : JsVal :=
  match getHeader hs k with
  | some v => .str v
  | none => .undefined

/-- JavaScript truthiness of `headers[k]` (absent or empty string is falsy). -/
def headerTruthy (hs : List (String × String)) (k : String) : Bool :=
  match getHeader hs k with
  | some v => v ≠ ""
  | none => false

/-- ASCII lower-casing of one character, as `String.prototype.toLowerCase`
acts on the ASCII range (header names are ASCII; the forbidden list contains
only ASCII names). -/
def asciiLowerChar (c : Char) : Char :=
  if 'A' ≤ c ∧ c ≤ 'Z' then Char.ofNat (c.toNat + 32) else c

/-- ASCII lower-casing of a string (`header.toLowerCase()`). -/
def asciiLower (s : String) : String := ⟨s.data.map asciiLowerChar⟩

/-- `isAllowedHttpHeader(header)`:
`disableHeaderCheck || (header && forbidden.indexOf(header.toLowerCase()) === -1)`. -/
def isAllowedHttpHeader (disableHeaderCheck : Bool) (header : String) : Bool :=
  disableHeaderCheck ||
    (header ≠ "" && !(forbiddenRequestHeaders.contains (asciiLower header)))

/-- `isAllowedHttpMethod(method)`:
`method && forbiddenRequestMethods.indexOf(method) === -1` (case-sensitive). -/
def isAllowedHttpMethod (method : String) : Bool :=
  method ≠ "" && !(forbiddenRequestMethods.contains method)

/-- `settings.async` read off the current state; on the initial empty settings
object the property is `undefined`, hence falsy. -/
def settingsAsync (st : XHRState) : Bool :=
  match st.settings with
  | some s => s.async
  | none => false

/-- `dispatchEvent(event)`: invokes the `on<event>` slot and the registered
listeners; modelled as appending the event (with the `readyState` the listeners
observe) to the trace. -/
def dispatchEvent (st : XHRState) (name : String) : XHRState :=
  { st with events := st.events ++ [{ name := name, readyState := st.readyState }] }

/-- `setState(state)`: no-op when the state is unchanged; otherwise assigns it,
emits `readystatechange` when `settings.async || state < OPENED || state === DONE`,
and on an error-free DONE additionally emits `load` then `loadend`. -/
def setState (st : XHRState) (state : Nat) : XHRState :=
  if st.readyState = state then st
  else
    let st1 : XHRState := { st with readyState := state }
    let st2 : XHRState :=
      if settingsAsync st1 || decide (st1.readyState < OPENED) || st1.readyState == DONE
      then dispatchEvent st1 "readystatechange" else st1
    if st2.readyState == DONE && !st2.errorFlag
    then dispatchEvent (dispatchEvent st2 "load") "loadend"
    else st2

/-- `abort()`: resets headers and response buffers, sets the error flag, and
only when mid-exchange (not UNSENT, not OPENED-without-send, not DONE) clears
`sendFlag` and forces a DONE transition; finally assigns `readyState = UNSENT`
directly (no event). -/
def abort (st : XHRState) : XHRState :=
  let st1 : XHRState :=
    { st with headers := defaultHeaders, responseText := "", responseXML := "",
              errorFlag := true }
  let st2 : XHRState :=
    if st1.readyState ≠ UNSENT ∧ (st1.readyState ≠ OPENED ∨ st1.sendFlag = true) ∧
       st1.readyState ≠ DONE
    then setState { st1 with sendFlag := false } DONE
    else st1
  { st2 with readyState := UNSENT }

/-- The error message thrown by `open()` on a forbidden method. -/
def securityErrMsg : String := "SecurityError: Request method not allowed"

/-- `v || null`, the normalisation `open()` applies to `user` and `password`. -/
def orNull (v : JsVal) : JsVal := if v.truthy then v else JsVal.null

/-- `open(method, url, async, user, password)`: implicit `abort()`, clear the
error flag, validate the method (throwing a security error), store the settings
record (`async` defaults to true when not a boolean; `user`/`password` normalised
with `|| null`), transition to OPENED. The result pairs the post-call state with
the thrown message, if any. -/
def openReq (st : XHRState) (method url : String) (async : Option Bool)
    (user password : JsVal) : XHRState × Option String :=
  let st1 := abort st
  let st2 : XHRState := { st1 with errorFlag := false }
  if isAllowedHttpMethod method = false then (st2, some securityErrMsg)
  else
    let newSettings : Settings :=
      { method := method, url := JsVal.str url, async := async.getD true,
        user := orNull user, password := orNull password }
    let st3 : XHRState := { st2 with settings := some newSettings }
    (setState st3 OPENED, none)

/-- `setDisableHeaderCheck(state)`. -/
def setDisableHeaderCheck (st : XHRState) (state : Bool) : XHRState :=
  { st with disableHeaderCheck := state }

/-- Outcome of a `setRequestHeader` call: a thrown error or a returned boolean. -/
inductive SRHOut where
  | threw (msg : String)
  | ret (b : Bool)
deriving DecidableEq, Repr

/-- Whether a `setRequestHeader` outcome is a thrown error. -/
def SRHOut.isThrew : SRHOut → Bool
  | .threw _ => true
  | .ret _ => false

/-- The state-check error message of `setRequestHeader`. -/
def srhStateMsg : String :=
  "INVALID_STATE_ERR: setRequestHeader can only be called when state is OPEN"

/-- The send-flag error message of `setRequestHeader`. -/
def srhSendMsg : String := "INVALID_STATE_ERR: send flag is true"

/-- `setRequestHeader(header, value)`, translated in source order: state check
(throw), forbidden-header check (warn and return false), send-flag check
(throw), then store the header and return true. -/
def setRequestHeader (st : XHRState) (header value : String) : XHRState × SRHOut :=
  if st.readyState ≠ OPENED then (st, .threw srhStateMsg)
  else if isAllowedHttpHeader st.disableHeaderCheck header = false then
    ({ st with warnings :=
        st.warnings ++ ["Refused to set unsafe header \"" ++ header ++ "\""] },
     .ret false)
  else if st.sendFlag then (st, .threw srhSendMsg)
  else ({ st with headers := setHeader st.headers header value }, .ret true)

/-- The parsed-URL record produced by the URL resolver collaborator
(`Url.parse`): `{protocol, hostname, port, pathname, search, hash}` plus the
`path` field (`pathname` + `search`) which the redirect follower reads. The
port is modelled as a number per the resolver contract (`none` = no explicit
port). -/
structure ParsedUrl where
  protocol : Option String
  hostname : String
  port : Option Nat
  pathname : String
  search : Option String
  hash : Option String
  path : String
deriving DecidableEq, Repr

/-- A transport response head: status code and (lower-cased) header map. -/
structure TranspResponse where
  statusCode : Nat
  headers : List (String × String)
deriving DecidableEq, Repr

/-- The observable content of a transport request issued via
`http.request(options, ...)`: the option fields the claims are about
(TLS material, agent and protocol tag are opaque pass-throughs and omitted)
plus the body written before `.end()`. -/
structure Request where
  hostname : String
  port : Option Nat
  path : String
  method : String
  headers : List (String × String)
  body : Option String
deriving DecidableEq, Repr

/-- Outcome of a `send` call: a thrown error, or a transport request issued. -/
inductive SendOut where
  | threw (msg : String)
  | issued (req : Request)
deriving DecidableEq, Repr

/-- Whether a `send` outcome issued a transport request. -/
def SendOut.isIssued : SendOut → Bool
  | .issued _ => true
  | .threw _ => false

/-- `send` error message: called before `open()`. -/
def sendStateMsg : String :=
  "INVALID_STATE_ERR: connection must be opened before send() is called"

/-- `send` error message: send already in progress. -/
def sendFlagMsg : String := "INVALID_STATE_ERR: send has already been called"

/-- `send` error message: unsupported protocol. -/
def protocolNotSupportedMsg : String := "Protocol not supported."

/-- `send` error message: `file:` scheme. -/
def localNotSupportedMsg : String :=
  "The \"local\" option is not supported on TItanium."

/-- `send` error message: synchronous mode. -/
def syncNotSupportedMsg : String :=
  "Synchronous requests are not supported in Titanium."

/-- `url.port || (ssl ? 443 : 80)`: the effective port (an explicit port of 0
is falsy in JavaScript and also falls back to the scheme default). -/
def effectivePort (ssl : Bool) (p : Option Nat) : Nat :=
  match p with
  | some p => if p ≠ 0 then p else (if ssl then 443 else 80)
  | none => if ssl then 443 else 80

/-- `':' + url.port` string coercion (`null` when no explicit port). -/
def jsPortString : Option Nat → String
  | some p => toString p
  | none => "null"

/-- `Buffer.byteLength(data)` for a string body: its UTF-8 byte length. -/
def byteLength : JsVal → Nat
  | .str s => s.utf8ByteSize
  | _ => 0

/-- The part of `send` after the protocol switch, for a network scheme:
computes the effective port and request path, sets the `Host` header (suffix
omitted exactly when `(ssl && port === 443) || port === 80`), builds the Basic
Auth header when a user is present (replacing an `undefined` password by the
empty string in `settings`), normalises the body and the content headers,
resets the error flag, and either issues the request asynchronously (setting
`sendFlag`, then dispatching `readystatechange` and, after `request.end()`,
`loadstart`) or throws the synchronous-mode error. -/
def sendNet (st : XHRState) (s : Settings) (data : JsVal) (url : ParsedUrl)
    (ssl : Bool) (hostname : String) : XHRState × SendOut :=
  let port := effectivePort ssl url.port
  let uri := url.pathname ++ (url.search.getD "")
  let hostHeader :=
    if (ssl && port == 443) || port == 80 then url.hostname
    else url.hostname ++ ":" ++ jsPortString url.port
  let headers1 := setHeader st.headers "Host" hostHeader
  let s2 : Settings :=
    if s.user.truthy && s.password == JsVal.undefined
    then { s with password := JsVal.str "" } else s
  let headers2 :=
    if s.user.truthy then
      setHeader headers1 "Authorization"
        ("Basic " ++ s2.user.toJsString ++ ":" ++ s2.password.toJsString)
    else headers1
  let data2 := if s.method = "GET" ∨ s.method = "HEAD" then JsVal.null else data
  let headers3 :=
    if s.method = "GET" ∨ s.method = "HEAD" then headers2
    else if data.truthy then
      let h := setHeader headers2 "Content-Length" (toString (byteLength data))
      if headerTruthy h "Content-Type" then h
      else setHeader h "Content-Type" "text/plain;charset=UTF-8"
    else if s.method = "POST" then setHeader headers2 "Content-Length" "0"
    else headers2
  let st1 : XHRState :=
    { st with headers := headers3, settings := some s2, errorFlag := false }
  if s.async then
    let st2 : XHRState := { st1 with sendFlag := true }
    let st3 := dispatchEvent st2 "readystatechange"
    let req : Request :=
      { hostname := hostname, port := some port, path := uri,
        method := s.method, headers := headers3,
        body := if data2.truthy then some data2.toJsString else none }
    (dispatchEvent st3 "loadstart", .issued req)
  else
    (st1, .threw syncNotSupportedMsg)

/-- `send(data)`: state and send-flag checks (throwing), then the protocol
switch on `Url.parse(settings.url)`: `https:` selects TLS, `http:` plain,
`file:` throws the local-not-supported error, a missing or empty protocol
defaults the hostname to "localhost", anything else throws. The `settings = none`
branch is unreachable: `readyState = OPENED` only arises from `openReq`, which
always stores a settings record. -/
def send (parse : JsVal → ParsedUrl) (st : XHRState) (data : JsVal) :
    XHRState × SendOut :=
  if st.readyState ≠ OPENED then (st, .threw sendStateMsg)
  else if st.sendFlag then (st, .threw sendFlagMsg)
  else
    match st.settings with
    | none => (st, .threw sendStateMsg)
    | some s =>
      let url := parse s.url
      if url.protocol = some "file:" then (st, .threw localNotSupportedMsg)
      else if url.protocol = some "https:" ∨ url.protocol = some "http:" ∨
              url.protocol = none ∨ url.protocol = some "" then
        let ssl := url.protocol == some "https:"
        let hostname :=
          if url.protocol = none ∨ url.protocol = some "" then "localhost"
          else url.hostname
        sendNet st s data url ssl hostname
      else (st, .threw protocolNotSupportedMsg)

/-- The transport response handler installed by `send`: on status 302/303/307
it overwrites `settings.url` with the `location` response header, re-parses it
and issues a new request (method forced to GET only for 303, same header map,
no body); otherwise it transitions to HEADERS_RECEIVED and then records the
status code. The `settings = none` branch is unreachable: a response only
arrives for an exchange whose `open()` stored a settings record. -/
def responseHandler (parse : JsVal → ParsedUrl) (st : XHRState)
    (resp : TranspResponse) : XHRState × Option Request :=
  if resp.statusCode == 302 || resp.statusCode == 303 || resp.statusCode == 307 then
    match st.settings with
    | none => (st, none)
    | some s =>
      let loc := getHeaderJs resp.headers "location"
      let u := parse loc
      let req : Request :=
        { hostname := u.hostname, port := u.port, path := u.path,
          method := if resp.statusCode == 303 then "GET" else s.method,
          headers := st.headers, body := none }
      ({ st with settings := some ({ s with url := loc }) }, some req)
  else
    let st1 := setState st HEADERS_RECEIVED
    ({ st1 with status := some resp.statusCode }, none)

/-- The `data` stream handler: appends a truthy chunk to `responseText`
unconditionally, then transitions to LOADING only while `sendFlag` holds. -/
def onData (st : XHRState) (chunk : String) : XHRState :=
  let st1 : XHRState :=
    if chunk ≠ "" then { st with responseText := st.responseText ++ chunk } else st
  if st1.sendFlag then setState st1 LOADING else st1

/-- The `end` stream handler: when `sendFlag` still holds, clears it first and
then transitions to DONE; otherwise the event is discarded. -/
def onEnd (st : XHRState) : XHRState :=
  if st.sendFlag then setState { st with sendFlag := false } DONE else st

/-- `handleError(error)`: status 503, the error as status text, its stack as
response text, error flag set, forced DONE transition. `sendFlag` is not
touched. -/
def handleError (st : XHRState) (error : JsError) : XHRState :=
  setState
    { st with status := some 503, statusText := .err error,
              responseText := error.stack, errorFlag := true } DONE

/-- The state of a freshly constructed emulator object. -/
def initialState : XHRState :=
  { readyState := UNSENT, settings := none, disableHeaderCheck := false,
    headers := defaultHeaders, sendFlag := false, errorFlag := false,
    responseText := "", responseXML := "", status := none, statusText := .null,
    events := [], warnings := [] }

/-- Number of `readystatechange` events in a trace. -/
def rscCount (evs : List Event) : Nat :=
  (evs.filter (fun e => e.name == "readystatechange")).length

/-- A constant URL resolver mapping every input to a plain http URL with no
explicit port, used to drive concrete executions. -/
def parseHttpExample : JsVal → ParsedUrl := fun _ =>
  { protocol := some "http:", hostname := "example.com", port := none,
    pathname := "/", search := none, hash := none, path := "/" }

/-- The state of a fresh emulator right after
`open('GET', 'http://example.com/')`. -/
def freshOpenedGet : XHRState :=
  (openReq initialState "GET" "http://example.com/" none JsVal.undefined JsVal.undefined).1

/-- The request carried by an `issued` send outcome, if any. -/
def SendOut.theRequest : SendOut → Option Request
  | .issued r => some r
  | .threw _ => none

/-- The post-send state of a fresh asynchronous GET exchange. -/
def sentGet : XHRState := (send parseHttpExample freshOpenedGet JsVal.null).1

/-- A 302 response carrying a Location header. -/
def resp302 : TranspResponse :=
  { statusCode := 302, headers := [("location", "http://other.example/")] }

/-- A mid-exchange state aborted while LOADING: obtained by opening, sending,
receiving the response head (status 200) and one chunk, then calling
`abort()`. -/
def abortedDuringLoading : XHRState :=
  abort (onData (responseHandler parseHttpExample sentGet
    { statusCode := 200, headers := [] }).1 "ab")

/-- The OPENED state observed by a listener during the `readystatechange`
dispatched synchronously by `send()`: the send flag is already set. -/
def openedSending : XHRState := { freshOpenedGet with sendFlag := true }

/-- A resolver mapping every input to an https URL with explicit port 80. -/
def parseHttps80 : JsVal → ParsedUrl := fun _ =>
  { protocol := some "https:", hostname := "example.com", port := some 80,
    pathname := "/", search := none, hash := none, path := "/" }

/-- The DONE state produced by a transport error (`handleError`) during the
fresh asynchronous GET exchange. -/
def erroredGet : XHRState :=
  handleError sentGet { message := "connect ECONNREFUSED",
                        stack := "Error: connect ECONNREFUSED" }

/-- The state after re-opening the errored exchange with `open()`. -/
def reopenedAfterError : XHRState :=
  (openReq erroredGet "GET" "http://example.com/" none JsVal.undefined JsVal.undefined).1

/-- The complete two-chunk successful exchange: open, send, response head with
status 200, chunks "ab" then "cd", then stream end. -/
def twoChunkRun : XHRState :=
  onEnd (onData (onData (responseHandler parseHttpExample sentGet
    { statusCode := 200, headers := [] }).1 "ab") "cd")

theorem dispatchEvent_readyState (st : XHRState) (n : String) :
    (dispatchEvent st n).readyState = st.readyState := rfl

theorem dispatchEvent_events (st : XHRState) (n : String) :
    (dispatchEvent st n).events =
      st.events ++ [{ name := n, readyState := st.readyState }] := rfl

theorem setState_readyState (st : XHRState) (s' : Nat) :
    (setState st s').readyState = s' := by
  unfold setState
  split
  · next h => exact h
  · dsimp only
    split <;> split <;> rfl

theorem setState_settings (st : XHRState) (s' : Nat) :
    (setState st s').settings = st.settings := by
  unfold setState
  split
  · rfl
  · dsimp only
    split <;> split <;> rfl

theorem setState_sendFlag (st : XHRState) (s' : Nat) :
    (setState st s').sendFlag = st.sendFlag := by
  unfold setState
  split
  · rfl
  · dsimp only
    split <;> split <;> rfl

theorem dispatchEvent_headers (st : XHRState) (n : String) :
    (dispatchEvent st n).headers = st.headers := rfl

theorem abort_sendFlag (st : XHRState) (h : st.sendFlag = false) :
    (abort st).sendFlag = false := by
  unfold abort
  dsimp only
  split
  · rw [setState_sendFlag]
  · exact h

theorem openReq_sendFlag (st : XHRState) (method url : String)
    (asy : Option Bool) (u pw : JsVal) (h : st.sendFlag = false)
    (hm : isAllowedHttpMethod method = true) :
    (openReq st method url asy u pw).1.sendFlag = false := by
  unfold openReq
  rw [if_neg (by simp [hm])]
  dsimp only
  rw [setState_sendFlag]
  exact abort_sendFlag st h

theorem openReq_readyState (st : XHRState) (method url : String)
    (asy : Option Bool) (u pw : JsVal)
    (hm : isAllowedHttpMethod method = true) :
    (openReq st method url asy u pw).1.readyState = OPENED := by
  unfold openReq
  rw [if_neg (by simp [hm])]
  dsimp only
  rw [setState_readyState]

theorem setState_responseText (st : XHRState) (s' : Nat) :
    (setState st s').responseText = st.responseText := by
  unfold setState
  split
  · rfl
  · dsimp only
    split <;> split <;> rfl

theorem setState_errorFlag (st : XHRState) (s' : Nat) :
    (setState st s').errorFlag = st.errorFlag := by
  unfold setState
  split
  · rfl
  · dsimp only
    split <;> split <;> rfl

theorem setState_settingsAsync (st : XHRState) (s' : Nat) :
    settingsAsync (setState st s') = settingsAsync st := by
  unfold settingsAsync
  rw [setState_settings]

theorem rscCount_append (a b : List Event) :
    rscCount (a ++ b) = rscCount a + rscCount b := by
  simp [rscCount, List.filter_append]

theorem rscCount_single_rsc (k : Nat) :
    rscCount [{ name := "readystatechange", readyState := k }] = 1 := rfl

theorem rscCount_single_load (k : Nat) :
    rscCount [{ name := "load", readyState := k }] = 0 := rfl

theorem rscCount_single_loadend (k : Nat) :
    rscCount [{ name := "loadend", readyState := k }] = 0 := rfl

theorem getHeader_setHeader_self (hs : List (String × String)) (k v : String) :
    getHeader (setHeader hs k v) k = some v := by
  induction hs with
  | nil => simp [setHeader, getHeader]
  | cons p rest ih =>
    by_cases h : p.1 = k
    · simp [setHeader, getHeader, h]
    · simp [setHeader, getHeader, h, ih]

theorem getHeader_setHeader_ne (hs : List (String × String)) (k' k v : String)
    (h : k' ≠ k) : getHeader (setHeader hs k' v) k = getHeader hs k := by
  induction hs with
  | nil => simp [setHeader, getHeader, h]
  | cons p rest ih =>
    by_cases hp : p.1 = k'
    · simp [setHeader, getHeader, hp, h]
    · by_cases hk : p.1 = k
      · simp [setHeader, getHeader, hp, hk, Ne.symm h]
      · simp [setHeader, getHeader, hp, hk, ih]

/-- Claim C4: on an asynchronous exchange, every `setState` call whose new state
differs from the current `readyState` fires `readystatechange` exactly once,
a call with an unchanged state fires nothing (it is a no-op), and `open()` with
any valid method/URL pair leaves `readyState` at OPENED. -/
theorem c4_setState_fires_once (st : XHRState) (s' : Nat) (st0 : XHRState)
    (method url : String) (asy : Option Bool) (u pw : JsVal)
    (hasync : settingsAsync st = true) (hm : isAllowedHttpMethod method = true) :
    (st.readyState ≠ s' →
      rscCount (setState st s').events = rscCount st.events + 1) ∧
    (st.readyState = s' → setState st s' = st) ∧
    (openReq st0 method url asy u pw).1.readyState = OPENED := by
  refine ⟨?_, ?_, ?_⟩
  · intro hne
    unfold setState
    rw [if_neg hne]
    have hA : settingsAsync { st with readyState := s' } = true := hasync
    dsimp only
    rw [hA]
    simp only [Bool.true_or, if_pos]
    split
    · simp [dispatchEvent, rscCount, List.filter_append]
    · simp [dispatchEvent, rscCount, List.filter_append]
  · intro heq
    unfold setState
    rw [if_pos heq]
  · simp [openReq, hm, setState_readyState]

/-- Witness for C4: a concrete asynchronous state, the HEADERS_RECEIVED target
and a concrete `open()` call. -/
theorem c4_setState_fires_once_witness :
    (freshOpenedGet.readyState ≠ HEADERS_RECEIVED →
      rscCount (setState freshOpenedGet HEADERS_RECEIVED).events =
        rscCount freshOpenedGet.events + 1) ∧
    (freshOpenedGet.readyState = HEADERS_RECEIVED →
      setState freshOpenedGet HEADERS_RECEIVED = freshOpenedGet) ∧
    (openReq initialState "GET" "http://example.com/" none JsVal.undefined
        JsVal.undefined).1.readyState = OPENED :=
  c4_setState_fires_once freshOpenedGet HEADERS_RECEIVED initialState
    "GET" "http://example.com/" none JsVal.undefined JsVal.undefined
    (by decide) (by decide)

/-- Claim C9: from any OPENED state whose settings were stored with
`async = false`, `send()` throws an explicit "not supported" error (the
synchronous-mode message, or the `file:`-scheme / unknown-protocol one when the
URL forces those earlier checks), issues no transport request, and leaves
`sendFlag` false — for every method, URL, body and resolver. -/
theorem c9_sync_send_fails (parse : JsVal → ParsedUrl) (st : XHRState)
    (data : JsVal) (s : Settings)
    (h1 : st.readyState = OPENED) (h2 : st.sendFlag = false)
    (h3 : st.settings = some s) (h4 : s.async = false) :
    ((send parse st data).2 = .threw syncNotSupportedMsg ∨
     (send parse st data).2 = .threw localNotSupportedMsg ∨
     (send parse st data).2 = .threw protocolNotSupportedMsg) ∧
    (send parse st data).1.sendFlag = false ∧
    (send parse st data).2.isIssued = false := by
  unfold send
  rw [if_neg (by simp [h1]), if_neg (by simp [h2]), h3]
  dsimp only
  split
  · exact ⟨Or.inr (Or.inl rfl), h2, rfl⟩
  · split
    · unfold sendNet
      rw [h4]
      dsimp only
      exact ⟨Or.inl rfl, h2, rfl⟩
    · exact ⟨Or.inr (Or.inr rfl), h2, rfl⟩

/-- Witness for C9: a concrete `open('GET', url, false)` state and resolver. -/
theorem c9_sync_send_fails_witness :
    (((send parseHttpExample
        (openReq initialState "GET" "http://example.com/" (some false)
          JsVal.undefined JsVal.undefined).1 JsVal.null).2 =
          .threw syncNotSupportedMsg ∨
      (send parseHttpExample
        (openReq initialState "GET" "http://example.com/" (some false)
          JsVal.undefined JsVal.undefined).1 JsVal.null).2 =
          .threw localNotSupportedMsg ∨
      (send parseHttpExample
        (openReq initialState "GET" "http://example.com/" (some false)
          JsVal.undefined JsVal.undefined).1 JsVal.null).2 =
          .threw protocolNotSupportedMsg) ∧
     (send parseHttpExample
        (openReq initialState "GET" "http://example.com/" (some false)
          JsVal.undefined JsVal.undefined).1 JsVal.null).1.sendFlag = false ∧
     (send parseHttpExample
        (openReq initialState "GET" "http://example.com/" (some false)
          JsVal.undefined JsVal.undefined).1 JsVal.null).2.isIssued = false) :=
  c9_sync_send_fails parseHttpExample
    (openReq initialState "GET" "http://example.com/" (some false)
      JsVal.undefined JsVal.undefined).1 JsVal.null
    { method := "GET", url := JsVal.str "http://example.com/", async := false,
      user := JsVal.null, password := JsVal.null }
    (by decide) (by decide) (by decide) (by decide)

/-- Counterexample to claim C2: a body chunk delivered after `abort()` (with
`sendFlag` false) is NOT discarded entirely — the handler appends it to
`responseText` unconditionally; only the LOADING transition is suppressed. -/
theorem c2_counterexample :
    abortedDuringLoading.sendFlag = false ∧
    abortedDuringLoading.responseText = "" ∧
    (onData abortedDuringLoading "xyz").responseText = "xyz" ∧
    (onData abortedDuringLoading "xyz").readyState =
      abortedDuringLoading.readyState ∧
    (onData abortedDuringLoading "xyz").events = abortedDuringLoading.events := by
  decide

/-- Claim C2 (amended): a truthy body chunk is appended to `responseText`
unconditionally, even when it arrives after `abort()`; a false `sendFlag`
suppresses only the state change — no LOADING transition and no
`readystatechange` event occurs. With `sendFlag` still true the chunk is also
appended and the state transitions to LOADING, idempotently (no event) when
already LOADING. -/
theorem c2_chunk_handling (st : XHRState) (chunk : String) :
    (chunk ≠ "" → (onData st chunk).responseText = st.responseText ++ chunk) ∧
    (st.sendFlag = false → (onData st chunk).readyState = st.readyState ∧
      (onData st chunk).events = st.events) ∧
    (st.sendFlag = true → (onData st chunk).readyState = LOADING) ∧
    (st.sendFlag = true → st.readyState = LOADING →
      (onData st chunk).events = st.events) := by
  by_cases hc : chunk = ""
  · subst hc
    refine ⟨fun h => absurd rfl h, ?_, ?_, ?_⟩
    · intro hsf
      unfold onData
      simp [hsf]
    · intro hsf
      unfold onData
      simp [hsf, setState_readyState]
    · intro hsf hrs
      unfold onData
      simp only [ne_eq, not_true_eq_false, if_false, hsf, if_true]
      unfold setState
      rw [if_pos hrs]
  · refine ⟨?_, ?_, ?_, ?_⟩
    · intro _
      unfold onData
      rw [if_pos hc]
      dsimp only
      split
      · exact setState_responseText _ _
      · rfl
    · intro hsf
      unfold onData
      rw [if_pos hc]
      simp [hsf]
    · intro hsf
      unfold onData
      rw [if_pos hc]
      simp [hsf, setState_readyState]
    · intro hsf hrs
      unfold onData
      rw [if_pos hc]
      simp only [hsf, if_true]
      unfold setState
      rw [if_pos (show ({ st with responseText := st.responseText ++ chunk }
        : XHRState).readyState = LOADING from hrs)]

/-- Witness for C2 (amended) at the concrete aborted state and chunk "xyz". -/
theorem c2_chunk_handling_witness :
    ("xyz" ≠ "" → (onData abortedDuringLoading "xyz").responseText =
      abortedDuringLoading.responseText ++ "xyz") ∧
    (abortedDuringLoading.sendFlag = false →
      (onData abortedDuringLoading "xyz").readyState =
        abortedDuringLoading.readyState ∧
      (onData abortedDuringLoading "xyz").events =
        abortedDuringLoading.events) ∧
    (abortedDuringLoading.sendFlag = true →
      (onData abortedDuringLoading "xyz").readyState = LOADING) ∧
    (abortedDuringLoading.sendFlag = true →
      abortedDuringLoading.readyState = LOADING →
      (onData abortedDuringLoading "xyz").events =
        abortedDuringLoading.events) :=
  c2_chunk_handling abortedDuringLoading "xyz"

/-- Counterexample to claim C5: with `readyState = OPENED` but send already
started (`sendFlag = true`) — the state a listener observes during the
`readystatechange` dispatched synchronously by `send()` — a forbidden header
does NOT raise the invalid-state error the claim requires for every call with
send started: the forbidden-header refusal is checked first and the call
returns `false` without throwing. -/
theorem c5_counterexample :
    openedSending.readyState = OPENED ∧ openedSending.sendFlag = true ∧
    (setRequestHeader openedSending "Cookie" "x").2 = SRHOut.ret false ∧
    SRHOut.isThrew (setRequestHeader openedSending "Cookie" "x").2 = false := by
  decide

/-- Claim C5 (amended): `setRequestHeader` throws the invalid-state error when
`readyState ≠ OPENED`; when OPENED, a header name failing the allowed-header
check (a forbidden name compared case-insensitively with validation enabled,
or the empty name) is refused before the send-flag check — no throw, a
warning is recorded, a falsy result is returned and the header map is
untouched; when OPENED with an allowed name and send already started it throws
the invalid-state error; otherwise the header is stored verbatim and `true` is
returned. Disabling validation via `setDisableHeaderCheck(true)` makes every
name allowed, and with validation enabled any name in the forbidden set is
refused. -/
theorem c5_setRequestHeader_spec (st : XHRState) (header value : String) :
    (st.readyState ≠ OPENED →
      setRequestHeader st header value = (st, .threw srhStateMsg)) ∧
    (st.readyState = OPENED →
      isAllowedHttpHeader st.disableHeaderCheck header = false →
      (setRequestHeader st header value).2 = .ret false ∧
      (setRequestHeader st header value).1.headers = st.headers ∧
      (setRequestHeader st header value).1.warnings =
        st.warnings ++ ["Refused to set unsafe header \"" ++ header ++ "\""]) ∧
    (st.readyState = OPENED →
      isAllowedHttpHeader st.disableHeaderCheck header = true →
      st.sendFlag = true →
      setRequestHeader st header value = (st, .threw srhSendMsg)) ∧
    (st.readyState = OPENED →
      isAllowedHttpHeader st.disableHeaderCheck header = true →
      st.sendFlag = false →
      (setRequestHeader st header value).2 = .ret true ∧
      getHeader (setRequestHeader st header value).1.headers header
        = some value) ∧
    (st.disableHeaderCheck = true →
      isAllowedHttpHeader st.disableHeaderCheck header = true) ∧
    (st.disableHeaderCheck = false →
      forbiddenRequestHeaders.contains (asciiLower header) = true →
      isAllowedHttpHeader st.disableHeaderCheck header = false) := by
  refine ⟨?_, ?_, ?_, ?_, ?_, ?_⟩
  · intro h
    unfold setRequestHeader
    rw [if_pos h]
  · intro h1 h2
    unfold setRequestHeader
    rw [if_neg (by simp [h1]), if_pos h2]
    exact ⟨rfl, rfl, rfl⟩
  · intro h1 h2 h3
    unfold setRequestHeader
    rw [if_neg (by simp [h1]), if_neg (by simp [h2]), if_pos h3]
  · intro h1 h2 h3
    unfold setRequestHeader
    rw [if_neg (by simp [h1]), if_neg (by simp [h2]), if_neg (by simp [h3])]
    exact ⟨rfl, getHeader_setHeader_self _ _ _⟩
  · intro h
    simp [isAllowedHttpHeader, h]
  · intro h1 h2
    unfold isAllowedHttpHeader
    rw [h1, h2]
    simp

/-- Witness for C5 (amended) at the fresh OPENED state and header
`X-Custom`. -/
theorem c5_setRequestHeader_spec_witness :
    (freshOpenedGet.readyState ≠ OPENED →
      setRequestHeader freshOpenedGet "X-Custom" "1" =
        (freshOpenedGet, .threw srhStateMsg)) ∧
    (freshOpenedGet.readyState = OPENED →
      isAllowedHttpHeader freshOpenedGet.disableHeaderCheck "X-Custom" = false →
      (setRequestHeader freshOpenedGet "X-Custom" "1").2 = .ret false ∧
      (setRequestHeader freshOpenedGet "X-Custom" "1").1.headers =
        freshOpenedGet.headers ∧
      (setRequestHeader freshOpenedGet "X-Custom" "1").1.warnings =
        freshOpenedGet.warnings ++
          ["Refused to set unsafe header \"" ++ "X-Custom" ++ "\""]) ∧
    (freshOpenedGet.readyState = OPENED →
      isAllowedHttpHeader freshOpenedGet.disableHeaderCheck "X-Custom" = true →
      freshOpenedGet.sendFlag = true →
      setRequestHeader freshOpenedGet "X-Custom" "1" =
        (freshOpenedGet, .threw srhSendMsg)) ∧
    (freshOpenedGet.readyState = OPENED →
      isAllowedHttpHeader freshOpenedGet.disableHeaderCheck "X-Custom" = true →
      freshOpenedGet.sendFlag = false →
      (setRequestHeader freshOpenedGet "X-Custom" "1").2 = .ret true ∧
      getHeader (setRequestHeader freshOpenedGet "X-Custom" "1").1.headers
        "X-Custom" = some "1") ∧
    (freshOpenedGet.disableHeaderCheck = true →
      isAllowedHttpHeader freshOpenedGet.disableHeaderCheck "X-Custom" = true) ∧
    (freshOpenedGet.disableHeaderCheck = false →
      forbiddenRequestHeaders.contains (asciiLower "X-Custom") = true →
      isAllowedHttpHeader freshOpenedGet.disableHeaderCheck "X-Custom"
        = false) :=
  c5_setRequestHeader_spec freshOpenedGet "X-Custom" "1"

/-- Counterexample to claim C7: following a 302 redirect overwrites
`settings.url` with the Location header value, so the settings record does not
remain unchanged from `open()` until the next `open()`. -/
theorem c7_counterexample :
    sentGet.settings.map Settings.url = some (JsVal.str "http://example.com/") ∧
    (responseHandler parseHttpExample sentGet resp302).1.settings.map
      Settings.url = some (JsVal.str "http://other.example/") ∧
    (responseHandler parseHttpExample sentGet resp302).1.settings ≠
      sentGet.settings := by
  decide

/-- Claim C7 (amended): the settings record is set exactly once per `open()`,
and `send()` (whose undefined-password replacement cannot fire after `open()`,
which never stores an undefined password), `abort()`, the body/end handlers
and `handleError` all leave it unchanged — but following a 302/303/307
redirect overwrites exactly the `url` field with the Location header value. -/
theorem c7_settings_frame (parse : JsVal → ParsedUrl) (st : XHRState)
    (data : JsVal) (s : Settings) (resp : TranspResponse) (e : JsError)
    (chunk : String) (method url : String) (asy : Option Bool) (u pw : JsVal) :
    ((abort st).settings = st.settings) ∧
    (st.settings = some s → s.password ≠ JsVal.undefined →
      (send parse st data).1.settings = st.settings) ∧
    (isAllowedHttpMethod method = true →
      (openReq st method url asy u pw).1.settings = some
        { method := method, url := JsVal.str url, async := asy.getD true,
          user := orNull u, password := orNull pw }) ∧
    (st.settings = some s →
      (resp.statusCode = 302 ∨ resp.statusCode = 303 ∨ resp.statusCode = 307) →
      (responseHandler parse st resp).1.settings = some
        ({ s with url := getHeaderJs resp.headers "location" })) ∧
    (¬(resp.statusCode = 302 ∨ resp.statusCode = 303 ∨ resp.statusCode = 307) →
      (responseHandler parse st resp).1.settings = st.settings) ∧
    ((onData st chunk).settings = st.settings) ∧
    ((onEnd st).settings = st.settings) ∧
    ((handleError st e).settings = st.settings) := by
  refine ⟨?_, ?_, ?_, ?_, ?_, ?_, ?_, ?_⟩
  · unfold abort
    dsimp only
    split
    · simp [setState_settings]
    · rfl
  · intro h3 hpw
    unfold send
    split
    · rfl
    · split
      · rfl
      · rw [h3]
        dsimp only
        split
        · exact h3
        · split
          · unfold sendNet
            have hb : (s.user.truthy && (s.password == JsVal.undefined)) = false := by
              simp [hpw]
            simp only [hb]
            split <;> simp [dispatchEvent]
          · exact h3
  · intro hm
    simp [openReq, hm, setState_settings]
  · intro h3 h
    have hc : (resp.statusCode == 302 || resp.statusCode == 303 ||
        resp.statusCode == 307) = true := by
      rcases h with h | h | h <;> simp [h]
    unfold responseHandler
    rw [h3]
    simp [hc]
  · intro h
    push_neg at h
    have hc : (resp.statusCode == 302 || resp.statusCode == 303 ||
        resp.statusCode == 307) = false := by
      simp only [Bool.or_eq_false_iff, beq_eq_false_iff_ne, ne_eq]
      exact ⟨⟨h.1, h.2.1⟩, h.2.2⟩
    unfold responseHandler
    simp [hc, setState_settings]
  · unfold onData
    dsimp only
    split <;> split <;> simp [setState_settings]
  · unfold onEnd
    split
    · simp [setState_settings]
    · rfl
  · unfold handleError
    simp [setState_settings]

/-- Witness for C7 (amended) at the concrete sent exchange and a 302
response. -/
theorem c7_settings_frame_witness :
    ((abort sentGet).settings = sentGet.settings) ∧
    (sentGet.settings = some
        { method := "GET", url := JsVal.str "http://example.com/",
          async := true, user := JsVal.null, password := JsVal.null } →
      Settings.password
          { method := "GET", url := JsVal.str "http://example.com/",
            async := true, user := JsVal.null, password := JsVal.null } ≠
          JsVal.undefined →
      (send parseHttpExample sentGet JsVal.null).1.settings =
        sentGet.settings) ∧
    (isAllowedHttpMethod "GET" = true →
      (openReq sentGet "GET" "http://example.com/" none JsVal.undefined
          JsVal.undefined).1.settings = some
        { method := "GET", url := JsVal.str "http://example.com/",
          async := (none : Option Bool).getD true,
          user := orNull JsVal.undefined, password := orNull JsVal.undefined }) ∧
    (sentGet.settings = some
        { method := "GET", url := JsVal.str "http://example.com/",
          async := true, user := JsVal.null, password := JsVal.null } →
      (resp302.statusCode = 302 ∨ resp302.statusCode = 303 ∨
        resp302.statusCode = 307) →
      (responseHandler parseHttpExample sentGet resp302).1.settings = some
        { method := "GET", url := getHeaderJs resp302.headers "location",
          async := true, user := JsVal.null, password := JsVal.null }) ∧
    (¬(resp302.statusCode = 302 ∨ resp302.statusCode = 303 ∨
        resp302.statusCode = 307) →
      (responseHandler parseHttpExample sentGet resp302).1.settings =
        sentGet.settings) ∧
    ((onData sentGet "ab").settings = sentGet.settings) ∧
    ((onEnd sentGet).settings = sentGet.settings) ∧
    ((handleError sentGet { message := "e", stack := "s" }).settings =
      sentGet.settings) :=
  c7_settings_frame parseHttpExample sentGet JsVal.null
    { method := "GET", url := JsVal.str "http://example.com/",
      async := true, user := JsVal.null, password := JsVal.null }
    resp302 { message := "e", stack := "s" } "ab"
    "GET" "http://example.com/" none JsVal.undefined JsVal.undefined

/-- Claim C8: a response with status 303 makes the handler issue a second
request to the parsed Location URL with the method forced to GET and the same
header map; a 302 or 307 response issues it with the original method
unchanged (same headers, no body either way). -/
theorem c8_redirect_method (parse : JsVal → ParsedUrl) (st : XHRState)
    (resp : TranspResponse) (s : Settings) (h3 : st.settings = some s) :
    (resp.statusCode = 303 →
      (responseHandler parse st resp).2 = some
        { hostname := (parse (getHeaderJs resp.headers "location")).hostname,
          port := (parse (getHeaderJs resp.headers "location")).port,
          path := (parse (getHeaderJs resp.headers "location")).path,
          method := "GET", headers := st.headers, body := none }) ∧
    ((resp.statusCode = 302 ∨ resp.statusCode = 307) →
      (responseHandler parse st resp).2 = some
        { hostname := (parse (getHeaderJs resp.headers "location")).hostname,
          port := (parse (getHeaderJs resp.headers "location")).port,
          path := (parse (getHeaderJs resp.headers "location")).path,
          method := s.method, headers := st.headers, body := none }) := by
  constructor
  · intro h
    unfold responseHandler
    rw [h3]
    simp [h]
  · rintro (h | h) <;>
      (unfold responseHandler; rw [h3]; simp [h])

/-- Witness for C8 at concrete 303 and 302 responses. -/
theorem c8_redirect_method_witness :
    (((resp302.statusCode = 303 →
      (responseHandler parseHttpExample sentGet resp302).2 = some
        { hostname :=
            (parseHttpExample (getHeaderJs resp302.headers "location")).hostname,
          port := (parseHttpExample (getHeaderJs resp302.headers "location")).port,
          path := (parseHttpExample (getHeaderJs resp302.headers "location")).path,
          method := "GET", headers := sentGet.headers, body := none }) ∧
    ((resp302.statusCode = 302 ∨ resp302.statusCode = 307) →
      (responseHandler parseHttpExample sentGet resp302).2 = some
        { hostname :=
            (parseHttpExample (getHeaderJs resp302.headers "location")).hostname,
          port := (parseHttpExample (getHeaderJs resp302.headers "location")).port,
          path := (parseHttpExample (getHeaderJs resp302.headers "location")).path,
          method := Settings.method
            { method := "GET", url := JsVal.str "http://example.com/",
              async := true, user := JsVal.null, password := JsVal.null },
          headers := sentGet.headers, body := none }))) :=
  c8_redirect_method parseHttpExample sentGet resp302
    { method := "GET", url := JsVal.str "http://example.com/",
      async := true, user := JsVal.null, password := JsVal.null }
    (by decide)

/-- Counterexample to claim C6: for `https://example.com:80/` the effective
port is 80, which differs from the https scheme default 443, yet the port
suffix is omitted from the Host header — the omission test
`(ssl && port === 443) || port === 80` accepts port 80 under any scheme. -/
theorem c6_counterexample :
    getHeader (send parseHttps80 freshOpenedGet JsVal.null).1.headers "Host" =
      some "example.com" ∧
    effectivePort true (some 80) = 80 ∧ (80 : Nat) ≠ 443 := by
  decide

/-- Helper for C6: the Host header value and the issued request's port
produced by the network branch of `send`, for any state, settings, body and
parsed URL. -/
theorem sendNet_host (st : XHRState) (s : Settings) (data : JsVal)
    (url : ParsedUrl) (ssl : Bool) (hostname : String) :
    getHeader (sendNet st s data url ssl hostname).1.headers "Host" =
      some (if (ssl && effectivePort ssl url.port == 443) ||
               effectivePort ssl url.port == 80
            then url.hostname
            else url.hostname ++ ":" ++ jsPortString url.port) ∧
    (s.async = true →
      (sendNet st s data url ssl hostname).2.theRequest.map Request.port =
        some (some (effectivePort ssl url.port))) := by
  have hCL : ∀ hs v, getHeader (setHeader hs "Content-Length" v) "Host" =
      getHeader hs "Host" :=
    fun hs v => getHeader_setHeader_ne hs _ _ v (by decide)
  have hCT : ∀ hs v, getHeader (setHeader hs "Content-Type" v) "Host" =
      getHeader hs "Host" :=
    fun hs v => getHeader_setHeader_ne hs _ _ v (by decide)
  have hAu : ∀ hs v, getHeader (setHeader hs "Authorization" v) "Host" =
      getHeader hs "Host" :=
    fun hs v => getHeader_setHeader_ne hs _ _ v (by decide)
  constructor
  · unfold sendNet
    dsimp only
    split <;>
      simp only [dispatchEvent_headers] <;>
      split_ifs <;>
      simp [hCL, hCT, hAu, getHeader_setHeader_self]
  · intro ha
    unfold sendNet
    rw [ha]
    dsimp only
    rfl

/-- Claim C6 (amended): for every `send()` on a parsed http/https URL, the
effective port is the explicit (nonzero) port when present and otherwise 443
for https and 80 for http, and the issued request carries it; the Host header
is the hostname with the `:port` suffix omitted exactly when (https and
effective port 443) or effective port 80 — in particular an https URL with
explicit port 80 also omits the suffix, not only the scheme-default port. -/
theorem c6_host_header (parse : JsVal → ParsedUrl) (st : XHRState)
    (data : JsVal) (s : Settings)
    (h1 : st.readyState = OPENED) (h2 : st.sendFlag = false)
    (h3 : st.settings = some s)
    (hp : (parse s.url).protocol = some "http:" ∨
          (parse s.url).protocol = some "https:") :
    getHeader (send parse st data).1.headers "Host" =
      some (if (((parse s.url).protocol == some "https:") &&
                effectivePort ((parse s.url).protocol == some "https:")
                  (parse s.url).port == 443) ||
               effectivePort ((parse s.url).protocol == some "https:")
                 (parse s.url).port == 80
            then (parse s.url).hostname
            else (parse s.url).hostname ++ ":" ++
              jsPortString (parse s.url).port) ∧
    (s.async = true →
      (send parse st data).2.theRequest.map Request.port =
        some (some (effectivePort ((parse s.url).protocol == some "https:")
          (parse s.url).port))) := by
  have hns : ¬ st.readyState ≠ OPENED := by simp [h1]
  have hnf : ¬ st.sendFlag = true := by simp [h2]
  unfold send
  rw [if_neg hns, if_neg hnf, h3]
  dsimp only
  rcases hp with hp | hp
  · rw [if_neg (by simp [hp]), if_pos (Or.inr (Or.inl hp))]
    exact sendNet_host st s data (parse s.url) _ _
  · rw [if_neg (by simp [hp]), if_pos (Or.inl hp)]
    exact sendNet_host st s data (parse s.url) _ _

/-- Witness for C6 (amended): the fresh OPENED exchange resolved to
`https://example.com:80/`. -/
theorem c6_host_header_witness :
    getHeader (send parseHttps80 freshOpenedGet JsVal.null).1.headers "Host" =
      some (if (((parseHttps80 (JsVal.str "http://example.com/")).protocol ==
                  some "https:") &&
                effectivePort ((parseHttps80
                    (JsVal.str "http://example.com/")).protocol == some "https:")
                  (parseHttps80 (JsVal.str "http://example.com/")).port == 443) ||
               effectivePort ((parseHttps80
                   (JsVal.str "http://example.com/")).protocol == some "https:")
                 (parseHttps80 (JsVal.str "http://example.com/")).port == 80
            then (parseHttps80 (JsVal.str "http://example.com/")).hostname
            else (parseHttps80 (JsVal.str "http://example.com/")).hostname ++
              ":" ++ jsPortString
                (parseHttps80 (JsVal.str "http://example.com/")).port) ∧
    (true = true →
      (send parseHttps80 freshOpenedGet JsVal.null).2.theRequest.map
          Request.port =
        some (some (effectivePort ((parseHttps80
            (JsVal.str "http://example.com/")).protocol == some "https:")
          (parseHttps80 (JsVal.str "http://example.com/")).port))) :=
  c6_host_header parseHttps80 freshOpenedGet JsVal.null
    { method := "GET", url := JsVal.str "http://example.com/", async := true,
      user := JsVal.null, password := JsVal.null }
    (by decide) (by decide) (by decide) (by decide)

/-- Helper for C10: with a truthy user and a password that is not the JS
`undefined` value, the network branch of `send` builds the Authorization
header by bare string concatenation and leaves the settings record
unchanged. -/
theorem sendNet_auth (st : XHRState) (s : Settings) (data : JsVal)
    (url : ParsedUrl) (ssl : Bool) (hostname : String)
    (htr : s.user.truthy = true) (hpw : (s.password == JsVal.undefined) = false) :
    getHeader (sendNet st s data url ssl hostname).1.headers "Authorization" =
      some ("Basic " ++ s.user.toJsString ++ ":" ++ s.password.toJsString) ∧
    (sendNet st s data url ssl hostname).1.settings = some s := by
  have hCL : ∀ hs v, getHeader (setHeader hs "Content-Length" v)
      "Authorization" = getHeader hs "Authorization" :=
    fun hs v => getHeader_setHeader_ne hs _ _ v (by decide)
  have hCT : ∀ hs v, getHeader (setHeader hs "Content-Type" v)
      "Authorization" = getHeader hs "Authorization" :=
    fun hs v => getHeader_setHeader_ne hs _ _ v (by decide)
  unfold sendNet
  dsimp only
  rw [htr, hpw, Bool.true_and]
  constructor
  · split <;>
      simp only [dispatchEvent_headers] <;>
      split_ifs <;>
      first
        | exact (by assumption : False).elim
        | simp [hCL, hCT, getHeader_setHeader_self]
  · split <;> simp [dispatchEvent]

/-- Claim C10: `open()` with a user but the password argument omitted stores
`password` as JS `null` (via `password || null`), therefore the
`typeof settings.password === 'undefined'` guard in `send()` never fires —
the stored password remains null, never replaced by the empty string — and
the Authorization header is built by JS string concatenation as
`Basic user:null` rather than `Basic user:`. -/
theorem c10_null_password (parse : JsVal → ParsedUrl) (st : XHRState)
    (data : JsVal) (method url user : String) (asy : Option Bool)
    (hm : isAllowedHttpMethod method = true)
    (hu : user ≠ "")
    (hsf : st.sendFlag = false)
    (hp : (parse (JsVal.str url)).protocol = some "http:") :
    ((openReq st method url asy (JsVal.str user) JsVal.undefined).1.settings.map
        Settings.password = some JsVal.null) ∧
    (getHeader (send parse
        (openReq st method url asy (JsVal.str user) JsVal.undefined).1
        data).1.headers "Authorization" =
      some ("Basic " ++ user ++ ":null")) ∧
    ((send parse
        (openReq st method url asy (JsVal.str user) JsVal.undefined).1
        data).1.settings.map Settings.password = some JsVal.null) := by
  have htr : JsVal.truthy (JsVal.str user) = true := by
    simp [JsVal.truthy, hu]
  have hfu : JsVal.truthy JsVal.undefined = false := rfl
  have hS : (openReq st method url asy (JsVal.str user) JsVal.undefined).1.settings
      = some { method := method, url := JsVal.str url, async := asy.getD true,
               user := JsVal.str user, password := JsVal.null } := by
    unfold openReq
    rw [if_neg (by simp [hm])]
    dsimp only
    rw [setState_settings]
    simp [orNull, htr, hfu]
  have hrs : (openReq st method url asy (JsVal.str user)
      JsVal.undefined).1.readyState = OPENED :=
    openReq_readyState st method url asy _ _ hm
  have hsf1 : (openReq st method url asy (JsVal.str user)
      JsVal.undefined).1.sendFlag = false :=
    openReq_sendFlag st method url asy _ _ hsf hm
  have hstr : "Basic " ++ user ++ ":" ++ "null" = "Basic " ++ user ++ ":null" := by
    rw [String.append_assoc]
    rfl
  have hmain := sendNet_auth
    (openReq st method url asy (JsVal.str user) JsVal.undefined).1
    { method := method, url := JsVal.str url, async := asy.getD true,
      user := JsVal.str user, password := JsVal.null }
    data (parse (JsVal.str url))
    ((parse (JsVal.str url)).protocol == some "https:")
    (parse (JsVal.str url)).hostname htr rfl
  have hsend : send parse
      (openReq st method url asy (JsVal.str user) JsVal.undefined).1 data =
      sendNet (openReq st method url asy (JsVal.str user) JsVal.undefined).1
        { method := method, url := JsVal.str url, async := asy.getD true,
          user := JsVal.str user, password := JsVal.null }
        data (parse (JsVal.str url))
        ((parse (JsVal.str url)).protocol == some "https:")
        (parse (JsVal.str url)).hostname := by
    unfold send
    rw [if_neg (by simp [hrs]), if_neg (by simp [hsf1]), hS]
    dsimp only
    rw [if_neg (by simp [hp]), if_pos (Or.inr (Or.inl hp)),
      if_neg (by simp [hp])]
  refine ⟨?_, ?_, ?_⟩
  · rw [hS]
    rfl
  · rw [hsend]
    rw [hmain.1]
    dsimp only [JsVal.toJsString]
    rw [hstr]
  · rw [hsend, hmain.2]
    rfl

/-- Witness for C10: `open('GET', url, undefined, 'alice')` on a fresh
emulator followed by `send()`. -/
theorem c10_null_password_witness :
    ((openReq initialState "GET" "http://example.com/" none
        (JsVal.str "alice") JsVal.undefined).1.settings.map Settings.password =
      some JsVal.null) ∧
    (getHeader (send parseHttpExample
        (openReq initialState "GET" "http://example.com/" none
          (JsVal.str "alice") JsVal.undefined).1
        JsVal.null).1.headers "Authorization" =
      some ("Basic " ++ "alice" ++ ":null")) ∧
    ((send parseHttpExample
        (openReq initialState "GET" "http://example.com/" none
          (JsVal.str "alice") JsVal.undefined).1
        JsVal.null).1.settings.map Settings.password = some JsVal.null) :=
  c10_null_password parseHttpExample initialState JsVal.null
    "GET" "http://example.com/" "alice" none
    (by decide) (by decide) (by decide) (by decide)

/-- Counterexample to claim C1: in the concrete two-chunk successful exchange
the `readystatechange` event for LOADING fires only once, on the first chunk;
the second chunk's `setState(LOADING)` is a no-op because the state is
unchanged, so the claimed sequence with two LOADING notifications does not
occur (the full trace has a single LOADING entry). -/
theorem c1_counterexample :
    twoChunkRun.events =
      [ { name := "readystatechange", readyState := 1 },
        { name := "readystatechange", readyState := 1 },
        { name := "loadstart", readyState := 1 },
        { name := "readystatechange", readyState := 2 },
        { name := "readystatechange", readyState := 3 },
        { name := "readystatechange", readyState := 4 },
        { name := "load", readyState := 4 },
        { name := "loadend", readyState := 4 } ] ∧
    (twoChunkRun.events.filter (fun e =>
      e.name == "readystatechange" && e.readyState == LOADING)).length = 1 ∧
    twoChunkRun.responseText = "abcd" := by
  decide

/-- Helper for C1: on an asynchronous exchange, a `setState` to a changed
non-DONE state dispatches exactly one `readystatechange`. -/
theorem setState_async_events (st : XHRState) (s' : Nat)
    (hne : st.readyState ≠ s') (ha : settingsAsync st = true)
    (hnd : s' ≠ DONE) :
    setState st s' =
      dispatchEvent { st with readyState := s' } "readystatechange" := by
  unfold setState
  rw [if_neg hne]
  dsimp only
  rw [show settingsAsync { st with readyState := s' } = true from ha]
  simp only [Bool.true_or, if_true]
  have hbeq : (s' == DONE) = false := beq_eq_false_iff_ne.mpr hnd
  rw [if_neg (by simp [dispatchEvent, hbeq])]

/-- Helper for C1: on an asynchronous error-free exchange, a `setState` to
DONE from a different state dispatches `readystatechange`, `load`, `loadend`
in that order. -/
theorem setState_done_events (st : XHRState)
    (hne : st.readyState ≠ DONE) (ha : settingsAsync st = true)
    (he : st.errorFlag = false) :
    setState st DONE =
      dispatchEvent (dispatchEvent (dispatchEvent
        { st with readyState := DONE } "readystatechange") "load") "loadend" := by
  unfold setState
  rw [if_neg hne]
  dsimp only
  rw [show settingsAsync { st with readyState := DONE } = true from ha]
  simp only [Bool.true_or, if_true]
  rw [if_pos (by simp [dispatchEvent, he])]

/-- Helper for C1: the first truthy chunk on an asynchronous exchange in
HEADERS_RECEIVED appends to the response text and dispatches the LOADING
`readystatechange`. -/
theorem onData_first (st : XHRState) (c : String) (hc : c ≠ "")
    (hsf : st.sendFlag = true) (hrs : st.readyState = HEADERS_RECEIVED)
    (ha : settingsAsync st = true) :
    onData st c = dispatchEvent
      { st with responseText := st.responseText ++ c, readyState := LOADING }
      "readystatechange" := by
  unfold onData
  rw [if_pos hc]
  dsimp only
  rw [if_pos hsf]
  refine setState_async_events _ LOADING ?_ ha (by decide)
  show st.readyState ≠ LOADING
  rw [hrs]
  decide

/-- Helper for C1: a further truthy chunk while already LOADING appends to the
response text and dispatches nothing. -/
theorem onData_loading (st : XHRState) (c : String) (hc : c ≠ "")
    (hsf : st.sendFlag = true) (hrs : st.readyState = LOADING) :
    onData st c = { st with responseText := st.responseText ++ c } := by
  unfold onData
  rw [if_pos hc]
  dsimp only
  rw [if_pos hsf]
  unfold setState
  rw [if_pos hrs]

/-- Helper for C1: stream end on an asynchronous error-free exchange in
LOADING clears the send flag and dispatches `readystatechange`, `load`,
`loadend`. -/
theorem onEnd_done (st : XHRState) (hsf : st.sendFlag = true)
    (hrs : st.readyState = LOADING) (ha : settingsAsync st = true)
    (he : st.errorFlag = false) :
    onEnd st = dispatchEvent (dispatchEvent (dispatchEvent
      { st with sendFlag := false, readyState := DONE } "readystatechange")
      "load") "loadend" := by
  unfold onEnd
  rw [if_pos hsf]
  refine setState_done_events _ ?_ ha he
  show st.readyState ≠ DONE
  rw [hrs]
  decide

/-- Helper for C1: the observable effect of the network branch of `send` on an
asynchronous exchange. -/
theorem sendNet_async_facts (st : XHRState) (s : Settings) (data : JsVal)
    (url : ParsedUrl) (ssl : Bool) (hostname : String) (ha : s.async = true) :
    (sendNet st s data url ssl hostname).1.readyState = st.readyState ∧
    (sendNet st s data url ssl hostname).1.sendFlag = true ∧
    (sendNet st s data url ssl hostname).1.errorFlag = false ∧
    settingsAsync (sendNet st s data url ssl hostname).1 = true ∧
    (sendNet st s data url ssl hostname).1.responseText = st.responseText ∧
    (sendNet st s data url ssl hostname).1.events = st.events ++
      [ { name := "readystatechange", readyState := st.readyState },
        { name := "loadstart", readyState := st.readyState } ] := by
  unfold sendNet
  dsimp only
  rw [if_pos ha]
  refine ⟨rfl, rfl, rfl, ?_, rfl, ?_⟩
  · unfold settingsAsync
    dsimp only [dispatchEvent]
    split <;> exact ha
  · simp [dispatchEvent]

/-- Claim C1 (amended): a successful asynchronous exchange — status 200, two
truthy body chunks, then stream end — produces `readystatechange` (dispatched
synchronously at send, before network activity), `loadstart`,
`readystatechange` at HEADERS_RECEIVED, `readystatechange` at LOADING once,
on the first chunk only (the second chunk's transition is an idempotent
no-op), `readystatechange` at DONE, `load`, `loadend`; and the final
`responseText` is the concatenation of the two chunks in arrival order. -/
theorem c1_event_sequence (parse : JsVal → ParsedUrl) (st0 : XHRState)
    (s : Settings) (data : JsVal) (c1 c2 : String) (resp : TranspResponse)
    (h1 : st0.readyState = OPENED) (h2 : st0.sendFlag = false)
    (h3 : st0.settings = some s) (h4 : s.async = true)
    (h5 : (parse s.url).protocol = some "http:")
    (h6 : st0.responseText = "")
    (hc1 : c1 ≠ "") (hc2 : c2 ≠ "")
    (hrs : resp.statusCode = 200) :
    (onEnd (onData (onData (responseHandler parse
        (send parse st0 data).1 resp).1 c1) c2)).events =
      st0.events ++
      [ { name := "readystatechange", readyState := OPENED },
        { name := "loadstart", readyState := OPENED },
        { name := "readystatechange", readyState := HEADERS_RECEIVED },
        { name := "readystatechange", readyState := LOADING },
        { name := "readystatechange", readyState := DONE },
        { name := "load", readyState := DONE },
        { name := "loadend", readyState := DONE } ] ∧
    (onEnd (onData (onData (responseHandler parse
        (send parse st0 data).1 resp).1 c1) c2)).responseText = c1 ++ c2 := by
  have hsend : send parse st0 data = sendNet st0 s data (parse s.url)
      ((parse s.url).protocol == some "https:") (parse s.url).hostname := by
    unfold send
    rw [if_neg (by simp [h1]), if_neg (by simp [h2]), h3]
    dsimp only
    rw [if_neg (by simp [h5]), if_pos (Or.inr (Or.inl h5)),
      if_neg (by simp [h5])]
  obtain ⟨hA1, hA2, hA3, hA4, hA5, hA6⟩ := sendNet_async_facts st0 s data
    (parse s.url) ((parse s.url).protocol == some "https:")
    (parse s.url).hostname h4
  rw [hsend]
  set t1 := (sendNet st0 s data (parse s.url)
    ((parse s.url).protocol == some "https:") (parse s.url).hostname).1 with ht1
  have hcond : (resp.statusCode == 302 || resp.statusCode == 303 ||
      resp.statusCode == 307) = false := by rw [hrs]; rfl
  have hRH : responseHandler parse t1 resp =
      ({ setState t1 HEADERS_RECEIVED with status := some resp.statusCode },
        none) := by
    unfold responseHandler
    rw [if_neg (by simp [hcond])]
  have hS2 : setState t1 HEADERS_RECEIVED =
      dispatchEvent { t1 with readyState := HEADERS_RECEIVED }
        "readystatechange" :=
    setState_async_events t1 HEADERS_RECEIVED
      (by rw [hA1, h1]; decide) hA4 (by decide)
  have hE2ev : (responseHandler parse t1 resp).1.events = t1.events ++
      [{ name := "readystatechange", readyState := HEADERS_RECEIVED }] := by
    rw [hRH]
    dsimp only
    rw [hS2]
    simp [dispatchEvent]
  have hE2rt : (responseHandler parse t1 resp).1.responseText =
      t1.responseText := by
    rw [hRH]
    dsimp only
    rw [hS2]
    rfl
  have hE2sf : (responseHandler parse t1 resp).1.sendFlag = true := by
    rw [hRH]
    dsimp only
    rw [hS2]
    exact hA2
  have hE2rs : (responseHandler parse t1 resp).1.readyState =
      HEADERS_RECEIVED := by
    rw [hRH]
    dsimp only
    rw [hS2]
    rfl
  have hE2ef : (responseHandler parse t1 resp).1.errorFlag = false := by
    rw [hRH]
    dsimp only
    rw [hS2]
    exact hA3
  have hE2as : settingsAsync (responseHandler parse t1 resp).1 = true := by
    rw [hRH]
    show settingsAsync (setState t1 HEADERS_RECEIVED) = true
    rw [setState_settingsAsync]
    exact hA4
  have hD1 := onData_first (responseHandler parse t1 resp).1 c1 hc1 hE2sf
    hE2rs hE2as
  have hE3ev : (onData (responseHandler parse t1 resp).1 c1).events =
      t1.events ++
      [{ name := "readystatechange", readyState := HEADERS_RECEIVED },
       { name := "readystatechange", readyState := LOADING }] := by
    rw [hD1]
    simp [dispatchEvent, hE2ev, LOADING]
  have hE3rt : (onData (responseHandler parse t1 resp).1 c1).responseText =
      t1.responseText ++ c1 := by
    rw [hD1]
    show (responseHandler parse t1 resp).1.responseText ++ c1 =
      t1.responseText ++ c1
    rw [hE2rt]
  have hE3sf : (onData (responseHandler parse t1 resp).1 c1).sendFlag =
      true := by
    rw [hD1]
    exact hE2sf
  have hE3rs : (onData (responseHandler parse t1 resp).1 c1).readyState =
      LOADING := by
    rw [hD1]
    rfl
  have hE3ef : (onData (responseHandler parse t1 resp).1 c1).errorFlag =
      false := by
    rw [hD1]
    exact hE2ef
  have hE3as : settingsAsync (onData (responseHandler parse t1 resp).1 c1) =
      true := by
    rw [hD1]
    show settingsAsync (responseHandler parse t1 resp).1 = true
    exact hE2as
  have hD2 := onData_loading (onData (responseHandler parse t1 resp).1 c1) c2
    hc2 hE3sf hE3rs
  have hE4ev : (onData (onData (responseHandler parse t1 resp).1 c1) c2).events
      = t1.events ++
      [{ name := "readystatechange", readyState := HEADERS_RECEIVED },
       { name := "readystatechange", readyState := LOADING }] := by
    rw [hD2]
    show (onData (responseHandler parse t1 resp).1 c1).events = _
    exact hE3ev
  have hE4rt : (onData (onData (responseHandler parse t1 resp).1 c1)
      c2).responseText = t1.responseText ++ c1 ++ c2 := by
    rw [hD2]
    show (onData (responseHandler parse t1 resp).1 c1).responseText ++ c2 = _
    rw [hE3rt]
  have hE4sf : (onData (onData (responseHandler parse t1 resp).1 c1)
      c2).sendFlag = true := by
    rw [hD2]
    exact hE3sf
  have hE4rs : (onData (onData (responseHandler parse t1 resp).1 c1)
      c2).readyState = LOADING := by
    rw [hD2]
    exact hE3rs
  have hE4ef : (onData (onData (responseHandler parse t1 resp).1 c1)
      c2).errorFlag = false := by
    rw [hD2]
    exact hE3ef
  have hE4as : settingsAsync (onData (onData
      (responseHandler parse t1 resp).1 c1) c2) = true := by
    rw [hD2]
    show settingsAsync (onData (responseHandler parse t1 resp).1 c1) = true
    exact hE3as
  have hD3 := onEnd_done (onData (onData (responseHandler parse t1 resp).1 c1)
    c2) hE4sf hE4rs hE4as hE4ef
  constructor
  · rw [hD3]
    simp only [dispatchEvent_events, dispatchEvent_readyState]
    rw [show ({ onData (onData (responseHandler parse t1 resp).1 c1) c2 with
      sendFlag := false, readyState := DONE } : XHRState).events =
      (onData (onData (responseHandler parse t1 resp).1 c1) c2).events from rfl]
    rw [hE4ev, hA6, h1]
    simp [List.append_assoc]
  · rw [hD3]
    show (onData (onData (responseHandler parse t1 resp).1 c1)
      c2).responseText = c1 ++ c2
    rw [hE4rt, hA5, h6]
    simp

/-- Witness for C1 (amended): the fresh GET exchange with chunks "ab" and
"cd" and a 200 response. -/
theorem c1_event_sequence_witness :
    (onEnd (onData (onData (responseHandler parseHttpExample
        (send parseHttpExample freshOpenedGet JsVal.null).1
        { statusCode := 200, headers := [] }).1 "ab") "cd")).events =
      freshOpenedGet.events ++
      [ { name := "readystatechange", readyState := OPENED },
        { name := "loadstart", readyState := OPENED },
        { name := "readystatechange", readyState := HEADERS_RECEIVED },
        { name := "readystatechange", readyState := LOADING },
        { name := "readystatechange", readyState := DONE },
        { name := "load", readyState := DONE },
        { name := "loadend", readyState := DONE } ] ∧
    (onEnd (onData (onData (responseHandler parseHttpExample
        (send parseHttpExample freshOpenedGet JsVal.null).1
        { statusCode := 200, headers := [] }).1 "ab") "cd")).responseText =
      "ab" ++ "cd" :=
  c1_event_sequence parseHttpExample freshOpenedGet
    { method := "GET", url := JsVal.str "http://example.com/", async := true,
      user := JsVal.null, password := JsVal.null }
    JsVal.null "ab" "cd" { statusCode := 200, headers := [] }
    (by decide) (by decide) (by decide) (by decide) (by decide) (by decide)
    (by decide) (by decide) (by decide)

/-- Claim C3 is violated by the code: `handleError` forces DONE but never
clears `sendFlag`; the stale flag survives the implicit abort of a subsequent
`open()` (whose mid-exchange guard skips a DONE state), so the next `send()`
throws the "already been called" invalid-state error. -/
theorem c3_error_leaves_send_flag :
    erroredGet.readyState = DONE ∧ erroredGet.sendFlag = true ∧
    reopenedAfterError.readyState = OPENED ∧
    reopenedAfterError.sendFlag = true ∧
    (send parseHttpExample reopenedAfterError JsVal.null).2 =
      SendOut.threw sendFlagMsg := by
  decide

end XHR
